import Mathlib

/-!
Verification development for the MindForge progression and puzzle-session
state machine (src/src/js/core/game.js, class MindForge).

The JavaScript core is shallowly embedded as pure Lean functions over an
explicit GameState value.  JS numbers that only ever hold non-negative
integers in the modelled code paths are embedded as Nat; where the source
can produce negative intermediate values (the score before clamping, the
hint index computation, a corrupt persisted threshold) the embedding uses
Int so that the JS arithmetic is reproduced exactly.  DOM access, toast
messages, the analytics console log and localStorage are external
collaborators: DOM reads become explicit parameters (the submitted answer,
the current time), localStorage becomes an explicit blob value, and DOM
writes are dropped.  Presentation-only record fields (title, subtitle,
description, icon, difficulty label of a chamber) are omitted from the
embedded records; no core operation reads them.
-/

namespace MindForge

/-- User profile, from the gameState.user literal (game.js lines 12-20). -/
structure UserProfile where
  level : Nat
  xp : Nat
  xpToNext : Nat
  totalSolved : Nat
  currentStreak : Nat
  chambersUnlocked : Nat
  achievements : List String
  deriving DecidableEq

/-- User settings, from the gameState.settings literal (game.js lines 21-27). -/
structure GameSettings where
  soundEffects : Bool
  autoHints : Bool
  highContrast : Bool
  reducedMotion : Bool
  fontSize : String
  deriving DecidableEq

/-- Session analytics counters, from the gameState.analytics literal
(game.js lines 29-34). -/
structure GameAnalytics where
  sessionStart : Nat
  puzzleAttempts : Nat
  hintsUsed : Nat
  timeSpent : Nat
  deriving DecidableEq

/-- The correctAnswer field of a puzzle is either a choice index (a JS
number) or an answer text (a JS string); validateAnswer branches on
typeof. -/
inductive PuzzleAnswer where
  | idx (n : Nat)
  | text (s : String)
  deriving DecidableEq

/-- Catalog-supplied puzzle record; only the fields read by the core are
embedded (question, options and explanation are rendered but never branch
the core logic, so they are kept as plain data). -/
structure Puzzle where
  id : String
  question : String
  options : List String
  correctAnswer : PuzzleAnswer
  explanation : String
  hints : List String
  timeLimit : Nat
  points : Nat
  deriving DecidableEq

/-- Per-chamber progress record, from initializeChambers
(game.js lines 254-261). -/
structure ChamberProgress where
  completed : Nat
  total : Nat
  bestTimes : List Nat
  hintsUsed : Nat
  accuracy : Nat
  unlockedPuzzles : Nat
  deriving DecidableEq

/-- Chamber record as stored in the gameState.chambers Map
(game.js lines 251-263); presentation-only fields omitted. -/
structure Chamber where
  id : String
  unlockLevel : Nat
  puzzleCount : Nat
  progress : ChamberProgress
  puzzles : List Puzzle
  deriving DecidableEq

/-- The live puzzle attempt, from the gameState.currentPuzzle literal
built in startPuzzle (game.js lines 698-705). -/
structure CurrentPuzzle where
  chamberId : String
  puzzleIndex : Nat
  puzzle : Puzzle
  startTime : Nat
  hintsUsed : Nat
  attempts : Nat
  deriving DecidableEq

/-- The whole mutable game state (game.js lines 8-35).  The insertion
ordered JS Map of chambers is embedded as an association list. -/
structure GameState where
  currentScreen : String
  currentChamber : Option String
  currentPuzzle : Option CurrentPuzzle
  user : UserProfile
  settings : GameSettings
  chambers : List (String × Chamber)
  analytics : GameAnalytics
  deriving DecidableEq

/-- Constructor defaults of the MindForge class (game.js lines 8-35);
sessionStart is Date.now(), passed in explicitly. -/
def initialGameState (now : Nat) : GameState :=
  { currentScreen := "welcome"
    currentChamber := none
    currentPuzzle := none
    user := { level := 1, xp := 0, xpToNext := 100, totalSolved := 0,
              currentStreak := 0, chambersUnlocked := 1, achievements := [] }
    settings := { soundEffects := true, autoHints := false, highContrast := false,
                  reducedMotion := false, fontSize := "medium" }
    chambers := []
    analytics := { sessionStart := now, puzzleAttempts := 0, hintsUsed := 0,
                   timeSpent := 0 } }

/-- One entry of the chamber catalog as initializeChambers stores it
(game.js lines 250-265): progress zeroed, puzzles empty until a loader
fills them.  userLevel is the level at initialization time, used for the
unlockedPuzzles field. -/
def mkChamber (id : String) (unlockLevel puzzleCount userLevel : Nat) :
    String × Chamber :=
  (id, { id := id, unlockLevel := unlockLevel, puzzleCount := puzzleCount,
         progress := { completed := 0, total := puzzleCount, bestTimes := [],
                       hintsUsed := 0, accuracy := 0,
                       unlockedPuzzles := if unlockLevel ≤ userLevel then 1 else 0 },
         puzzles := [] })

/-- The fixed chamber catalog of initializeChambers (game.js lines
126-247): id, unlockLevel and puzzleCount of each definition, in source
order.  loadChamberPuzzles later fills the puzzle lists of the three
implemented chambers from the external puzzle catalog provider; all other
chambers keep an empty puzzle list. -/
def initialChambers (userLevel : Nat) : List (String × Chamber) :=
  [ mkChamber "pattern-recognition" 1 25 userLevel
  , mkChamber "logical-sequences" 1 25 userLevel
  , mkChamber "spatial-reasoning" 3 25 userLevel
  , mkChamber "deductive-reasoning" 5 25 userLevel
  , mkChamber "inductive-reasoning" 7 25 userLevel
  , mkChamber "analytical-thinking" 10 25 userLevel
  , mkChamber "mathematical-logic" 12 25 userLevel
  , mkChamber "verbal-reasoning" 8 25 userLevel
  , mkChamber "conditional-logic" 15 25 userLevel
  , mkChamber "set-theory" 18 25 userLevel
  , mkChamber "logical-paradoxes" 20 25 userLevel
  , mkChamber "meta-reasoning" 25 30 userLevel ]

/-- Fresh first-run state: constructor defaults plus the initialized
chamber catalog (before any puzzle lists are loaded). -/
def freshStart : GameState :=
  { initialGameState 0 with chambers := initialChambers 1 }

/-- calculateXPForNextLevel (game.js lines 1132-1134):
Math.floor(100 * Math.pow(1.1, level - 1)), computed in exact rational
arithmetic: floor(100 * (11/10) ^ (level-1)) = 100 * 11^(level-1) / 10^(level-1)
in natural division. -/
def calculateXPForNextLevel (level : Nat) : Nat :=
  100 * 11 ^ (level - 1) / 10 ^ (level - 1)

/-- updateUnlockedChambers (game.js lines 1139-1147): counts the chambers
whose unlockLevel is at most the user level. -/
def updateUnlockedChambers (st : GameState) : GameState :=
  { st with user := { st.user with
      chambersUnlocked :=
        (st.chambers.filter (fun p => p.2.unlockLevel ≤ st.user.level)).length } }

/-- The while loop of addXP (game.js lines 1113-1124), with explicit fuel.
Each iteration subtracts the threshold from xp, increments the level,
recomputes the threshold and recomputes the unlocked chambers.  addXP
supplies fuel proven sufficient for the loop to reach its exit condition
(lemma addXPLoop_exits below). -/
def addXPLoop : Nat → GameState → GameState
  | 0, st => st
  | fuel + 1, st =>
    if st.user.xpToNext ≤ st.user.xp then
      let u := st.user
      let u2 := { u with xp := u.xp - u.xpToNext, level := u.level + 1 }
      let u3 := { u2 with xpToNext := calculateXPForNextLevel u2.level }
      addXPLoop fuel (updateUnlockedChambers { st with user := u3 })
    else st

/-- addXP (game.js lines 1109-1127): add the amount to xp, then run the
level-up loop.  The supplied fuel xp + amount + 2 is enough for the loop
to terminate on its own exit condition. -/
def addXP (st : GameState) (amount : Nat) : GameState :=
  let st1 := { st with user := { st.user with xp := st.user.xp + amount } }
  addXPLoop (st1.user.xp + 2) st1

/-- Outcome of enterChamber / startPuzzle, distinguishing the user-facing
failure messages the source shows (showError calls) from a successful
transition to the puzzle screen. -/
inductive EnterOutcome where
  | notUnlocked
  | chamberExhausted
  | puzzleNotFound
  | started
  deriving DecidableEq

/-- startPuzzle (game.js lines 689-716): looks up the chamber, indexes its
puzzle list, and on success installs a fresh attempt record with the
current time and zeroed counters, switching to the puzzle screen. -/
def startPuzzle (st : GameState) (chamberId : String) (puzzleIndex : Nat)
    (now : Nat) : GameState × EnterOutcome :=
  match st.chambers.lookup chamberId with
  | none => (st, .puzzleNotFound)
  | some chamber =>
    match chamber.puzzles[puzzleIndex]? with
    | none => (st, .puzzleNotFound)
    | some puzzle =>
      ({ st with
          currentPuzzle := some { chamberId := chamberId, puzzleIndex := puzzleIndex,
                                  puzzle := puzzle, startTime := now,
                                  hintsUsed := 0, attempts := 0 },
          currentScreen := "puzzle" }, .started)

/-- enterChamber (game.js lines 668-684): missing or locked chamber fails
with the not-unlocked message; otherwise the current chamber is recorded
and the puzzle at index progress.completed is started when that index is
below the length of the loaded puzzle list, else the chamber-completed
message is shown. -/
def enterChamber (st : GameState) (chamberId : String) (now : Nat) :
    GameState × EnterOutcome :=
  match st.chambers.lookup chamberId with
  | none => (st, .notUnlocked)
  | some chamber =>
    if st.user.level < chamber.unlockLevel then (st, .notUnlocked)
    else
      let st1 := { st with currentChamber := some chamberId }
      let nextPuzzleIndex := chamber.progress.completed
      if nextPuzzleIndex < chamber.puzzles.length then
        startPuzzle st1 chamberId nextPuzzleIndex now
      else (st1, .chamberExhausted)

/-- validateAnswer (game.js lines 895-905): numeric equality when the
recorded answer is a number, case-insensitive equality when it is a
string.  A numeric user answer against a string key would throw a
TypeError in JS (number has no toLowerCase); that pairing is unreachable
through the UI and is embedded as false. -/
def validateAnswer (userAnswer correctAnswer : PuzzleAnswer) : Bool :=
  match correctAnswer, userAnswer with
  | .idx n, .idx m => m = n
  | .idx _, .text _ => false
  | .text s, .text t => t.toLower = s.toLower
  | .text _, .idx _ => false

/-- The basePoints fallback in handleCorrectAnswer (game.js line 918):
currentPuzzle.puzzle.points || 10, where a missing or zero points field
falls back to 10. -/
def puzzleBasePoints (points : Nat) : Nat :=
  if points = 0 then 10 else points

/-- calculateTimeBonus (game.js lines 1152-1164): 5 within 30000 ms,
Math.floor(5 * 0.5) = 2 within 60000 ms, 0 beyond. -/
def calculateTimeBonus (startTime now : Nat) : Nat :=
  let timeSpent := now - startTime
  if timeSpent ≤ 30000 then 5
  else if timeSpent ≤ 2 * 30000 then 5 / 2
  else 0

/-- The score computation of handleCorrectAnswer (game.js lines 914-920),
factored out: Math.max(1, basePoints + timeBonus - hintPenalty -
attemptPenalty) over JS numbers, embedded over Int since the sum before
clamping can be negative. -/
def scoreOnCorrect (points startTime now hintsUsed attempts : Nat) : Int :=
  let timeBonus := calculateTimeBonus startTime now
  let hintPenalty := hintsUsed * 2
  let attemptPenalty : Int := ((attempts : Int) - 1) * 1
  let basePoints := puzzleBasePoints points
  max 1 ((basePoints : Int) + (timeBonus : Int) - (hintPenalty : Int) - attemptPenalty)

/-- Replacement of a chamber value in the association list, modelling the
in-place mutation of the object held in the JS Map. -/
def setChamber (chambers : List (String × Chamber)) (chamberId : String)
    (c : Chamber) : List (String × Chamber) :=
  chambers.map (fun p => if p.1 = chamberId then (chamberId, c) else p)

/-- handleCorrectAnswer (game.js lines 910-953): computes the score,
increments the completed counter of the chamber, totalSolved and
currentStreak, accumulates analytics time, and feeds the score to addXP.
The score is at least 1, so the Int.toNat conversion is exact.  The
attempt record is kept (the next-puzzle modal still reads it); saving to
localStorage is the external persistence write. -/
def handleCorrectAnswer (st : GameState) (now : Nat) : GameState :=
  match st.currentPuzzle with
  | none => st
  | some cp =>
    match st.chambers.lookup cp.chamberId with
    | none => st
    | some chamber =>
      let finalScore := scoreOnCorrect cp.puzzle.points cp.startTime now
        cp.hintsUsed cp.attempts
      let chamber2 := { chamber with progress :=
        { chamber.progress with completed := chamber.progress.completed + 1 } }
      let st1 := { st with
        chambers := setChamber st.chambers cp.chamberId chamber2,
        user := { st.user with
                    totalSolved := st.user.totalSolved + 1,
                    currentStreak := st.user.currentStreak + 1 },
        analytics := { st.analytics with
          timeSpent := st.analytics.timeSpent + (now - cp.startTime) } }
      addXP st1 finalScore.toNat

/-- handleIncorrectAnswer (game.js lines 958-985): at three or more
attempts the streak resets to zero; nothing else in the state changes. -/
def handleIncorrectAnswer (st : GameState) : GameState :=
  match st.currentPuzzle with
  | none => st
  | some cp =>
    if 3 ≤ cp.attempts then
      { st with user := { st.user with currentStreak := 0 } }
    else st

/-- checkAnswer (game.js lines 873-890): without a live attempt or a
selected answer nothing happens; otherwise the attempt counter and the
analytics counter are incremented before validation, then the correct or
incorrect handler runs on the updated state. -/
def checkAnswer (st : GameState) (userAnswer : Option PuzzleAnswer) (now : Nat) :
    GameState :=
  match st.currentPuzzle with
  | none => st
  | some cp =>
    match userAnswer with
    | none => st
    | some ua =>
      let st1 := { st with
        currentPuzzle := some { cp with attempts := cp.attempts + 1 },
        analytics := { st.analytics with
          puzzleAttempts := st.analytics.puzzleAttempts + 1 } }
      if validateAnswer ua cp.puzzle.correctAnswer then
        handleCorrectAnswer st1 now
      else
        handleIncorrectAnswer st1

/-- Outcome of showHint: no live attempt, the no-more-hints warning, or a
hint display (the displayed text is the list entry at the clamped index,
none when the JS indexing would yield undefined). -/
inductive HintOutcome where
  | noAttempt
  | noMore
  | shown (hint : Option String)
  deriving DecidableEq

/-- showHint (game.js lines 990-1022): hintIndex is
Math.min(hintsUsed, hints.length - 1) over JS numbers, so it is computed
in Int (it is -1 for an empty hint list).  When hintIndex reaches
hints.length the warning is shown and nothing changes; otherwise the
attempt counter and the analytics counter are incremented and the hint at
hintIndex is displayed. -/
def showHint (st : GameState) : GameState × HintOutcome :=
  match st.currentPuzzle with
  | none => (st, .noAttempt)
  | some cp =>
    let hints := cp.puzzle.hints
    let hintIndex : Int := min (cp.hintsUsed : Int) ((hints.length : Int) - 1)
    if (hints.length : Int) ≤ hintIndex then (st, .noMore)
    else
      ({ st with
          currentPuzzle := some { cp with hintsUsed := cp.hintsUsed + 1 },
          analytics := { st.analytics with
            hintsUsed := st.analytics.hintsUsed + 1 } },
       .shown hints[hintIndex.toNat]?)

/-- resetPuzzle (game.js lines 1239-1273): with a live attempt, zeroes its
attempt and hint counters and restarts its clock; the DOM-only resets are
dropped. -/
def resetPuzzle (st : GameState) (now : Nat) : GameState :=
  match st.currentPuzzle with
  | none => st
  | some cp =>
    { st with
      currentPuzzle := some { cp with attempts := 0, hintsUsed := 0, startTime := now } }

/-- nextPuzzle (game.js lines 1090-1104): advances to the puzzle after the
current one when the chamber has more loaded puzzles, otherwise announces
chamber completion and returns to the chambers screen. -/
def nextPuzzle (st : GameState) (now : Nat) : GameState :=
  match st.currentPuzzle with
  | none => st
  | some cp =>
    match st.chambers.lookup cp.chamberId with
    | none => st
    | some chamber =>
      let nextIndex := cp.puzzleIndex + 1
      if nextIndex < chamber.puzzles.length then
        (startPuzzle st cp.chamberId nextIndex now).1
      else
        { st with currentScreen := "chambers" }

/-- A possibly partial persisted user object: the JSON blob may carry any
subset of the user fields, and loadGameData merges the present ones over
the defaults with an object spread. -/
structure SavedUser where
  level : Option Nat
  xp : Option Nat
  xpToNext : Option Nat
  totalSolved : Option Nat
  currentStreak : Option Nat
  chambersUnlocked : Option Nat
  achievements : Option (List String)
  deriving DecidableEq

/-- A possibly partial persisted settings object, merged over defaults the
same way. -/
structure SavedSettings where
  soundEffects : Option Bool
  autoHints : Option Bool
  highContrast : Option Bool
  reducedMotion : Option Bool
  fontSize : Option String
  deriving DecidableEq

/-- The persisted blob as loadGameData sees it after localStorage.getItem:
either JSON.parse fails on it (corrupt), or it is an object whose user,
settings and chambers fields may each be missing or unreadable.  An
unreadable chambers field (one on which the Map constructor throws inside
the try block, after user and settings were already merged) behaves like a
missing one. -/
inductive SavedData where
  | corrupt
  | data (user : Option SavedUser) (settings : Option SavedSettings)
         (chambers : Option (List (String × Chamber))) (lastSaved : Option Nat)
  deriving DecidableEq

/-- The object spread merge of loadGameData line 89: fields present in the
saved user override the defaults, missing fields keep them. -/
def mergeUser (d : UserProfile) (su : SavedUser) : UserProfile :=
  { level := su.level.getD d.level
    xp := su.xp.getD d.xp
    xpToNext := su.xpToNext.getD d.xpToNext
    totalSolved := su.totalSolved.getD d.totalSolved
    currentStreak := su.currentStreak.getD d.currentStreak
    chambersUnlocked := su.chambersUnlocked.getD d.chambersUnlocked
    achievements := su.achievements.getD d.achievements }

/-- The object spread merge of loadGameData line 90 for settings. -/
def mergeSettings (d : GameSettings) (ss : SavedSettings) : GameSettings :=
  { soundEffects := ss.soundEffects.getD d.soundEffects
    autoHints := ss.autoHints.getD d.autoHints
    highContrast := ss.highContrast.getD d.highContrast
    reducedMotion := ss.reducedMotion.getD d.reducedMotion
    fontSize := ss.fontSize.getD d.fontSize }

/-- saveGameData (game.js lines 106-120): serializes the user, the
settings, the chamber Map as its entry list, and a timestamp.  Every field
is present in the produced blob. -/
def saveGameData (st : GameState) (now : Nat) : SavedData :=
  .data
    (some { level := some st.user.level, xp := some st.user.xp,
            xpToNext := some st.user.xpToNext,
            totalSolved := some st.user.totalSolved,
            currentStreak := some st.user.currentStreak,
            chambersUnlocked := some st.user.chambersUnlocked,
            achievements := some st.user.achievements })
    (some { soundEffects := some st.settings.soundEffects,
            autoHints := some st.settings.autoHints,
            highContrast := some st.settings.highContrast,
            reducedMotion := some st.settings.reducedMotion,
            fontSize := some st.settings.fontSize })
    (some st.chambers)
    (some now)

/-- loadGameData (game.js lines 82-101): with no stored blob nothing
changes; a corrupt blob is caught by the try block and nothing changes; an
object blob is merged field by field over the current (default) state.
The function is total: no input makes it fail. -/
def loadGameData (st : GameState) (saved : Option SavedData) : GameState :=
  match saved with
  | none => st
  | some .corrupt => st
  | some (.data su ss sc _) =>
    { st with
      user := match su with
              | none => st.user
              | some u => mergeUser st.user u,
      settings := match ss with
                  | none => st.settings
                  | some s => mergeSettings st.settings s,
      chambers := match sc with
                  | none => st.chambers
                  | some cs => cs }

/-- State of the addXP while loop over raw JS numbers, for the behaviour
of the loop on arbitrary (possibly corrupt, negative) persisted values:
Int mirrors JS number arithmetic on integral values exactly. -/
structure XPLoopState where
  xp : Int
  level : Int
  xpToNext : Int
  deriving DecidableEq

/-- calculateXPForNextLevel over an arbitrary integer level:
Math.floor(100 * Math.pow(1.1, level - 1)) in exact rational arithmetic,
split on the sign of the exponent so that both powers stay integral. -/
def calculateXPForNextLevelZ (level : Int) : Int :=
  if 1 ≤ level then
    ((100 * 11 ^ (level - 1).toNat / 10 ^ (level - 1).toNat : Nat) : Int)
  else
    ((100 * 10 ^ (1 - level).toNat / 11 ^ (1 - level).toNat : Nat) : Int)

/-- One iteration of the addXP while loop (game.js lines 1113-1124) over
raw JS numbers: when xp has reached the threshold, subtract it, increment
the level and recompute the threshold; otherwise leave the state alone. -/
def xpLoopStep (s : XPLoopState) : XPLoopState :=
  if s.xpToNext ≤ s.xp then
    { xp := s.xp - s.xpToNext, level := s.level + 1,
      xpToNext := calculateXPForNextLevelZ (s.level + 1) }
  else s

/-- Exit condition of the addXP while loop: the loop stops exactly when xp
is strictly below the threshold. -/
def xpLoopDone (s : XPLoopState) : Bool :=
  s.xp < s.xpToNext

end MindForge

namespace MindForge.App

/-!
Second embedding, translated from the MindForge class as it appears in the
deployed bundle src/public/js/app.js (lines 1-1330 of that file), over the
same state types.  Each definition here is the translation of the
corresponding method of the bundled class, kept separate from the
src/src/js/core/game.js embedding above so that the two can be compared.
-/

/-- calculateXPForNextLevel of the bundled class (app.js lines 1132-1134). -/
def calculateXPForNextLevel (level : Nat) : Nat :=
  100 * 11 ^ (level - 1) / 10 ^ (level - 1)

/-- updateUnlockedChambers of the bundled class (app.js lines 1139-1147). -/
def updateUnlockedChambers (st : GameState) : GameState :=
  { st with user := { st.user with
      chambersUnlocked :=
        (st.chambers.filter (fun p => p.2.unlockLevel ≤ st.user.level)).length } }

/-- The while loop of addXP of the bundled class (app.js lines 1113-1124). -/
def addXPLoop : Nat → GameState → GameState
  | 0, st => st
  | fuel + 1, st =>
    if st.user.xpToNext ≤ st.user.xp then
      let u := st.user
      let u2 := { u with xp := u.xp - u.xpToNext, level := u.level + 1 }
      let u3 := { u2 with xpToNext := calculateXPForNextLevel u2.level }
      addXPLoop fuel (updateUnlockedChambers { st with user := u3 })
    else st

/-- addXP of the bundled class (app.js lines 1109-1127). -/
def addXP (st : GameState) (amount : Nat) : GameState :=
  let st1 := { st with user := { st.user with xp := st.user.xp + amount } }
  addXPLoop (st1.user.xp + 2) st1

/-- startPuzzle of the bundled class (app.js lines 689-716). -/
def startPuzzle (st : GameState) (chamberId : String) (puzzleIndex : Nat)
    (now : Nat) : GameState × EnterOutcome :=
  match st.chambers.lookup chamberId with
  | none => (st, .puzzleNotFound)
  | some chamber =>
    match chamber.puzzles[puzzleIndex]? with
    | none => (st, .puzzleNotFound)
    | some puzzle =>
      ({ st with
          currentPuzzle := some { chamberId := chamberId, puzzleIndex := puzzleIndex,
                                  puzzle := puzzle, startTime := now,
                                  hintsUsed := 0, attempts := 0 },
          currentScreen := "puzzle" }, .started)

/-- enterChamber of the bundled class (app.js lines 668-684). -/
def enterChamber (st : GameState) (chamberId : String) (now : Nat) :
    GameState × EnterOutcome :=
  match st.chambers.lookup chamberId with
  | none => (st, .notUnlocked)
  | some chamber =>
    if st.user.level < chamber.unlockLevel then (st, .notUnlocked)
    else
      let st1 := { st with currentChamber := some chamberId }
      let nextPuzzleIndex := chamber.progress.completed
      if nextPuzzleIndex < chamber.puzzles.length then
        startPuzzle st1 chamberId nextPuzzleIndex now
      else (st1, .chamberExhausted)

/-- validateAnswer of the bundled class (app.js lines 895-905). -/
def validateAnswer (userAnswer correctAnswer : PuzzleAnswer) : Bool :=
  match correctAnswer, userAnswer with
  | .idx n, .idx m => m = n
  | .idx _, .text _ => false
  | .text s, .text t => t.toLower = s.toLower
  | .text _, .idx _ => false

/-- The basePoints fallback of the bundled class (app.js line 918). -/
def puzzleBasePoints (points : Nat) : Nat :=
  if points = 0 then 10 else points

/-- calculateTimeBonus of the bundled class (app.js lines 1152-1164). -/
def calculateTimeBonus (startTime now : Nat) : Nat :=
  let timeSpent := now - startTime
  if timeSpent ≤ 30000 then 5
  else if timeSpent ≤ 2 * 30000 then 5 / 2
  else 0

/-- The score computation of handleCorrectAnswer of the bundled class
(app.js lines 914-920). -/
def scoreOnCorrect (points startTime now hintsUsed attempts : Nat) : Int :=
  let timeBonus := calculateTimeBonus startTime now
  let hintPenalty := hintsUsed * 2
  let attemptPenalty : Int := ((attempts : Int) - 1) * 1
  let basePoints := puzzleBasePoints points
  max 1 ((basePoints : Int) + (timeBonus : Int) - (hintPenalty : Int) - attemptPenalty)

/-- Chamber replacement in the association list, as in the core
embedding. -/
def setChamber (chambers : List (String × Chamber)) (chamberId : String)
    (c : Chamber) : List (String × Chamber) :=
  chambers.map (fun p => if p.1 = chamberId then (chamberId, c) else p)

/-- handleCorrectAnswer of the bundled class (app.js lines 910-953). -/
def handleCorrectAnswer (st : GameState) (now : Nat) : GameState :=
  match st.currentPuzzle with
  | none => st
  | some cp =>
    match st.chambers.lookup cp.chamberId with
    | none => st
    | some chamber =>
      let finalScore := scoreOnCorrect cp.puzzle.points cp.startTime now
        cp.hintsUsed cp.attempts
      let chamber2 := { chamber with progress :=
        { chamber.progress with completed := chamber.progress.completed + 1 } }
      let st1 := { st with
        chambers := setChamber st.chambers cp.chamberId chamber2,
        user := { st.user with
                    totalSolved := st.user.totalSolved + 1,
                    currentStreak := st.user.currentStreak + 1 },
        analytics := { st.analytics with
          timeSpent := st.analytics.timeSpent + (now - cp.startTime) } }
      addXP st1 finalScore.toNat

/-- handleIncorrectAnswer of the bundled class (app.js lines 958-985). -/
def handleIncorrectAnswer (st : GameState) : GameState :=
  match st.currentPuzzle with
  | none => st
  | some cp =>
    if 3 ≤ cp.attempts then
      { st with user := { st.user with currentStreak := 0 } }
    else st

/-- checkAnswer of the bundled class (app.js lines 873-890). -/
def checkAnswer (st : GameState) (userAnswer : Option PuzzleAnswer) (now : Nat) :
    GameState :=
  match st.currentPuzzle with
  | none => st
  | some cp =>
    match userAnswer with
    | none => st
    | some ua =>
      let st1 := { st with
        currentPuzzle := some { cp with attempts := cp.attempts + 1 },
        analytics := { st.analytics with
          puzzleAttempts := st.analytics.puzzleAttempts + 1 } }
      if validateAnswer ua cp.puzzle.correctAnswer then
        handleCorrectAnswer st1 now
      else
        handleIncorrectAnswer st1

/-- showHint of the bundled class (app.js lines 990-1022). -/
def showHint (st : GameState) : GameState × HintOutcome :=
  match st.currentPuzzle with
  | none => (st, .noAttempt)
  | some cp =>
    let hints := cp.puzzle.hints
    let hintIndex : Int := min (cp.hintsUsed : Int) ((hints.length : Int) - 1)
    if (hints.length : Int) ≤ hintIndex then (st, .noMore)
    else
      ({ st with
          currentPuzzle := some { cp with hintsUsed := cp.hintsUsed + 1 },
          analytics := { st.analytics with
            hintsUsed := st.analytics.hintsUsed + 1 } },
       .shown hints[hintIndex.toNat]?)

/-- resetPuzzle of the bundled class (app.js lines 1239-1273). -/
def resetPuzzle (st : GameState) (now : Nat) : GameState :=
  match st.currentPuzzle with
  | none => st
  | some cp =>
    { st with
      currentPuzzle := some { cp with attempts := 0, hintsUsed := 0, startTime := now } }

/-- nextPuzzle of the bundled class (app.js lines 1090-1104). -/
def nextPuzzle (st : GameState) (now : Nat) : GameState :=
  match st.currentPuzzle with
  | none => st
  | some cp =>
    match st.chambers.lookup cp.chamberId with
    | none => st
    | some chamber =>
      let nextIndex := cp.puzzleIndex + 1
      if nextIndex < chamber.puzzles.length then
        (startPuzzle st cp.chamberId nextIndex now).1
      else
        { st with currentScreen := "chambers" }

/-- saveGameData of the bundled class (app.js lines 106-120). -/
def saveGameData (st : GameState) (now : Nat) : SavedData :=
  .data
    (some { level := some st.user.level, xp := some st.user.xp,
            xpToNext := some st.user.xpToNext,
            totalSolved := some st.user.totalSolved,
            currentStreak := some st.user.currentStreak,
            chambersUnlocked := some st.user.chambersUnlocked,
            achievements := some st.user.achievements })
    (some { soundEffects := some st.settings.soundEffects,
            autoHints := some st.settings.autoHints,
            highContrast := some st.settings.highContrast,
            reducedMotion := some st.settings.reducedMotion,
            fontSize := some st.settings.fontSize })
    (some st.chambers)
    (some now)

/-- loadGameData of the bundled class (app.js lines 82-101). -/
def loadGameData (st : GameState) (saved : Option SavedData) : GameState :=
  match saved with
  | none => st
  | some .corrupt => st
  | some (.data su ss sc _) =>
    { st with
      user := match su with
              | none => st.user
              | some u => mergeUser st.user u,
      settings := match ss with
                  | none => st.settings
                  | some s => mergeSettings st.settings s,
      chambers := match sc with
                  | none => st.chambers
                  | some cs => cs }

end MindForge.App

namespace MindForge

/-- Concrete fixture: the first puzzle of the logical-sequences catalog
(src/src/js/chambers/logical-sequences.js), used to instantiate theorems
on a concrete state. -/
def demoPuzzle : Puzzle :=
  { id := "logical_sequences_1"
    question := "If all roses are flowers, and this is a rose, then what can we conclude?"
    options := ["This is a flower", "This is not a flower",
                "This might be a flower", "We cannot conclude anything"]
    correctAnswer := .idx 0
    explanation := "Using logical deduction: All roses are flowers + This is a rose = This is a flower."
    hints := ["Use the rule \"All roses are flowers\" and apply it to \"this is a rose\".",
              "In logic, if A is true for all B, and we have a B, then A is true.",
              "If all roses are flowers, and we have a rose, it must be a flower."]
    timeLimit := 120
    points := 10 }

/-- Concrete fixture: the logical-sequences chamber with one loaded
puzzle. -/
def demoChamber : Chamber :=
  { id := "logical-sequences", unlockLevel := 1, puzzleCount := 25,
    progress := { completed := 0, total := 25, bestTimes := [], hintsUsed := 0,
                  accuracy := 0, unlockedPuzzles := 1 },
    puzzles := [demoPuzzle] }

/-- Concrete fixture: a fresh state whose chamber map holds the demo
chamber. -/
def demoState : GameState :=
  { initialGameState 0 with chambers := [("logical-sequences", demoChamber)] }

/-- Concrete fixture: the startup chamber catalog with a user who has
reached level 5 (enough to unlock deductive-reasoning, whose puzzle list
is never loaded because no generator is registered for it). -/
def levelFiveState : GameState :=
  { initialGameState 0 with
    user := { (initialGameState 0).user with level := 5 },
    chambers := initialChambers 1 }

/-- Concrete fixture: the startup chamber catalog with a level 3 user, who
cannot enter deductive-reasoning (unlockLevel 5). -/
def levelThreeState : GameState :=
  { initialGameState 0 with
    user := { (initialGameState 0).user with level := 3 },
    chambers := initialChambers 1 }

/-- Concrete fixture: a live attempt on the demo puzzle on which all three
hints have already been revealed. -/
def hintExhaustedState : GameState :=
  { demoState with
    currentPuzzle := some { chamberId := "logical-sequences", puzzleIndex := 0,
                            puzzle := demoPuzzle, startTime := 0,
                            hintsUsed := 3, attempts := 1 } }

/-- The recomputed threshold is at least 100 at every level: in exact
arithmetic, 100 * 11^k / 10^k is at least 100 because 11^k is at least
10^k. -/
theorem calculateXPForNextLevel_ge_100 (level : Nat) :
    100 ≤ calculateXPForNextLevel level := by
  unfold calculateXPForNextLevel
  rw [Nat.le_div_iff_mul_le (Nat.pos_pow_of_pos _ (by norm_num))]
  calc 100 * 10 ^ (level - 1) ≤ 100 * 11 ^ (level - 1) := by
        exact Nat.mul_le_mul_left _ (Nat.pow_le_pow_left (by norm_num) _)
    _ = _ := by ring

/-- updateUnlockedChambers only rewrites the unlocked-chambers counter. -/
theorem updateUnlockedChambers_user (st : GameState) :
    (updateUnlockedChambers st).user.xp = st.user.xp ∧
    (updateUnlockedChambers st).user.xpToNext = st.user.xpToNext ∧
    (updateUnlockedChambers st).user.level = st.user.level :=
  ⟨rfl, rfl, rfl⟩

/-- With more fuel than the current xp and a positive threshold, the
level-up loop runs to its exit condition: xp ends strictly below the
threshold. -/
theorem addXPLoop_exits (fuel : Nat) :
    ∀ st : GameState, st.user.xp < fuel → 1 ≤ st.user.xpToNext →
      (addXPLoop fuel st).user.xp < (addXPLoop fuel st).user.xpToNext := by
  induction fuel with
  | zero => intro st hxp _; omega
  | succ n ih =>
    intro st hxp hpos
    rw [addXPLoop]
    by_cases hc : st.user.xpToNext ≤ st.user.xp
    · rw [if_pos hc]
      apply ih
      · show st.user.xp - st.user.xpToNext < n
        omega
      · show 1 ≤ calculateXPForNextLevel (st.user.level + 1)
        have := calculateXPForNextLevel_ge_100 (st.user.level + 1)
        omega
    · rw [if_neg hc]
      omega

/-- With two units of fuel beyond the current xp the loop exits even when
the stored threshold is zero: the first iteration restores a threshold of
at least 100. -/
theorem addXPLoop_exits2 (fuel : Nat) (st : GameState)
    (h : st.user.xp + 1 < fuel) :
    (addXPLoop fuel st).user.xp < (addXPLoop fuel st).user.xpToNext := by
  rcases Nat.eq_zero_or_pos st.user.xpToNext with hz | hpos
  · obtain ⟨n, rfl⟩ : ∃ n, fuel = n + 1 := ⟨fuel - 1, by omega⟩
    rw [addXPLoop, if_pos (by omega)]
    apply addXPLoop_exits
    · show st.user.xp - st.user.xpToNext < n
      omega
    · show 1 ≤ calculateXPForNextLevel (st.user.level + 1)
      have := calculateXPForNextLevel_ge_100 (st.user.level + 1)
      omega
  · exact addXPLoop_exits fuel st (by omega) hpos

/-- Every single addXP call lands with xp strictly below the threshold. -/
theorem addXP_xp_lt (st : GameState) (amount : Nat) :
    (addXP st amount).user.xp < (addXP st amount).user.xpToNext := by
  unfold addXP
  exact addXPLoop_exits2 _ _ (by omega)

/-- C1: for every user profile with a positive threshold and every
sequence of awardXP (addXP) calls, after each call the profile satisfies
xp < xpToNext: an overflow always runs the level-up loop to completion and
never leaves xp at or above the threshold.  The trace of states after each
call is the tail of the scanl of addXP over the amounts. -/
theorem awardXP_xp_lt_threshold (st : GameState) (_h : 0 < st.user.xpToNext)
    (amounts : List Nat) :
    ∀ s ∈ (amounts.scanl addXP st).tail, s.user.xp < s.user.xpToNext := by
  have aux : ∀ (l : List Nat) (s0 : GameState),
      s0.user.xp < s0.user.xpToNext →
      ∀ s ∈ l.scanl addXP s0, s.user.xp < s.user.xpToNext := by
    intro l
    induction l with
    | nil =>
      intro s0 h0 s hs
      simp only [List.scanl_nil, List.mem_singleton] at hs
      subst hs; exact h0
    | cons a t ih =>
      intro s0 h0 s hs
      simp only [List.scanl_cons, List.singleton_append, List.mem_cons] at hs
      rcases hs with rfl | hs
      · exact h0
      · exact ih (addXP s0 a) (addXP_xp_lt s0 a) s hs
  cases amounts with
  | nil => intro s hs; simp at hs
  | cons a t =>
    intro s hs
    simp only [List.scanl_cons, List.singleton_append, List.tail_cons] at hs
    exact aux t (addXP st a) (addXP_xp_lt st a) s hs

/-- Witness for C1 on the fresh profile and a concrete award sequence. -/
theorem awardXP_xp_lt_threshold_witness :
    0 < freshStart.user.xpToNext ∧
      ∀ s ∈ (([150, 45] : List Nat).scanl addXP freshStart).tail,
        s.user.xp < s.user.xpToNext :=
  ⟨by decide, awardXP_xp_lt_threshold freshStart (by decide) [150, 45]⟩

/-- C6: awarding 150 XP to the fresh profile (level 1, xp 0, threshold
100) yields level 2, xp 50 and threshold floor(100 * 1.1) = 110, and a
single 250 XP award crosses two thresholds inside the one call, landing at
level 3, xp 40, threshold floor(100 * 1.1 ^ 2) = 121: the level-up loop
recomputes the threshold at each crossing. -/
theorem awardXP_scenarioA :
    (addXP freshStart 150).user.level = 2 ∧
    (addXP freshStart 150).user.xp = 50 ∧
    (addXP freshStart 150).user.xpToNext = 110 ∧
    calculateXPForNextLevel 2 = 110 ∧
    (addXP freshStart 250).user.level = 3 ∧
    (addXP freshStart 250).user.xp = 40 ∧
    (addXP freshStart 250).user.xpToNext = 121 := by
  decide

/-- The integer-level threshold recomputation yields at least 100 whenever
the level is at least 1. -/
theorem calculateXPForNextLevelZ_ge_100 (l : Int) (h : 1 ≤ l) :
    100 ≤ calculateXPForNextLevelZ l := by
  unfold calculateXPForNextLevelZ
  rw [if_pos h]
  exact_mod_cast calculateXPForNextLevel_ge_100 ((l - 1).toNat + 1)

/-- Auxiliary termination argument: from any loop state whose level is at
least 1 and whose threshold is already at least 100, the loop reaches its
exit condition within xp steps, because every iteration subtracts at least
100 from xp and keeps the threshold at or above 100. -/
theorem xpLoop_term_aux (m : Nat) :
    ∀ s : XPLoopState, 1 ≤ s.level → 100 ≤ s.xpToNext → s.xp.toNat ≤ m →
      ∃ n, xpLoopDone (xpLoopStep^[n] s) = true := by
  induction m with
  | zero =>
    intro s _ hx hm
    refine ⟨0, ?_⟩
    simp only [Function.iterate_zero_apply, xpLoopDone, decide_eq_true_eq]
    omega
  | succ k ih =>
    intro s hl hx hm
    by_cases hdone : s.xp < s.xpToNext
    · exact ⟨0, by simp only [Function.iterate_zero_apply, xpLoopDone,
        decide_eq_true_eq]; exact hdone⟩
    · push_neg at hdone
      have hstep : xpLoopStep s =
          { xp := s.xp - s.xpToNext, level := s.level + 1,
            xpToNext := calculateXPForNextLevelZ (s.level + 1) } := by
        unfold xpLoopStep
        rw [if_pos hdone]
      have hcalc : 100 ≤ calculateXPForNextLevelZ (s.level + 1) :=
        calculateXPForNextLevelZ_ge_100 _ (by omega)
      obtain ⟨n, hn⟩ := ih (xpLoopStep s)
        (by rw [hstep]; dsimp only; omega)
        (by rw [hstep]; dsimp only; exact hcalc)
        (by rw [hstep]; dsimp only; omega)
      exact ⟨n + 1, by rwa [Function.iterate_succ_apply]⟩

/-- C10: for every starting profile, even one whose persisted threshold is
non-positive or otherwise corrupt, and any level of at least 1, the
level-up loop of addXP reaches its exit condition in finitely many
iterations, because the recomputed threshold floor(100 * 1.1 ^ (level-1))
is at least 100 for every level of at least 1, so after the first
iteration xp strictly decreases by at least 100 per iteration. -/
theorem xp_loop_terminates (xp xpToNext level : Int) (h : 1 ≤ level) :
    (∀ l : Int, 1 ≤ l → 100 ≤ calculateXPForNextLevelZ l) ∧
    ∃ n, xpLoopDone
      (xpLoopStep^[n] { xp := xp, level := level, xpToNext := xpToNext }) = true := by
  refine ⟨fun l hl => calculateXPForNextLevelZ_ge_100 l hl, ?_⟩
  by_cases hdone : xp < xpToNext
  · exact ⟨0, by simp only [Function.iterate_zero_apply, xpLoopDone,
      decide_eq_true_eq]; exact hdone⟩
  · push_neg at hdone
    have hstep : xpLoopStep { xp := xp, level := level, xpToNext := xpToNext } =
        { xp := xp - xpToNext, level := level + 1,
          xpToNext := calculateXPForNextLevelZ (level + 1) } := by
      simp [xpLoopStep, hdone]
    obtain ⟨n, hn⟩ := xpLoop_term_aux (xp - xpToNext).toNat
      { xp := xp - xpToNext, level := level + 1,
        xpToNext := calculateXPForNextLevelZ (level + 1) }
      (by show (1 : Int) ≤ level + 1; omega)
      (by show (100 : Int) ≤ calculateXPForNextLevelZ (level + 1)
          exact calculateXPForNextLevelZ_ge_100 _ (by omega))
      le_rfl
    refine ⟨n + 1, ?_⟩
    rw [Function.iterate_succ_apply, hstep]
    exact hn

/-- Witness for C10 at a concrete corrupt profile: level 1 with a negative
stored threshold. -/
theorem xp_loop_terminates_witness :
    (1 : Int) ≤ 1 ∧
    ((∀ l : Int, 1 ≤ l → 100 ≤ calculateXPForNextLevelZ l) ∧
     ∃ n, xpLoopDone
       (xpLoopStep^[n] { xp := 500, level := 1, xpToNext := -7 }) = true) :=
  ⟨by decide, xp_loop_terminates 500 (-7) 1 (by decide)⟩

/-- C2: for basePoints at least 1 and attemptsMade at least 1, the score
awarded on a correct answer is exactly max(1, basePoints + timeBonus -
2 * hintsRevealed - (attemptsMade - 1)) with the 5 / 2 / 0 time-bonus
tiers at 30000 and 60000 ms, and in particular is always at least 1. -/
theorem score_formula_and_floor (basePoints elapsedMs hintsRevealed attemptsMade : Nat)
    (hb : 1 ≤ basePoints) (_ha : 1 ≤ attemptsMade) :
    scoreOnCorrect basePoints 0 elapsedMs hintsRevealed attemptsMade =
      max 1 ((basePoints : Int) +
        (if elapsedMs ≤ 30000 then 5 else if elapsedMs ≤ 60000 then 2 else 0) -
        2 * (hintsRevealed : Int) - ((attemptsMade : Int) - 1)) ∧
    1 ≤ scoreOnCorrect basePoints 0 elapsedMs hintsRevealed attemptsMade := by
  have hb0 : ¬ (basePoints = 0) := by omega
  constructor
  · simp only [scoreOnCorrect, calculateTimeBonus, puzzleBasePoints, if_neg hb0,
      Nat.sub_zero, show (5 / 2 : Nat) = 2 from rfl, show 2 * 30000 = 60000 from rfl]
    split_ifs <;> (congr 1; push_cast; ring)
  · simp only [scoreOnCorrect]
    exact le_max_left _ _

/-- Witness for C2 at the Scenario B input: 10 base points, 20000 ms, one
hint, one attempt. -/
theorem score_formula_and_floor_witness :
    1 ≤ 10 ∧ 1 ≤ 1 ∧
    (scoreOnCorrect 10 0 20000 1 1 =
      max 1 ((10 : Int) +
        (if (20000 : Nat) ≤ 30000 then 5 else if (20000 : Nat) ≤ 60000 then 2 else 0) -
        2 * ((1 : Nat) : Int) - (((1 : Nat) : Int) - 1)) ∧
     1 ≤ scoreOnCorrect 10 0 20000 1 1) :=
  ⟨by decide, by decide, score_formula_and_floor 10 20000 1 1 (by decide) (by decide)⟩

/-- C3 (amended): for an unlocked chamber, enterChamber fails with the
chamber-exhausted outcome exactly when progress.completed has reached the
length of the loaded puzzle list (not the static puzzleCount), and
otherwise starts the puzzle at index progress.completed. -/
theorem enterChamber_exhausted_iff_loaded (st : GameState) (chamberId : String)
    (now : Nat) (ch : Chamber)
    (hlk : st.chambers.lookup chamberId = some ch)
    (hunl : ch.unlockLevel ≤ st.user.level) :
    ((enterChamber st chamberId now).2 = EnterOutcome.chamberExhausted ↔
      ch.puzzles.length ≤ ch.progress.completed) ∧
    ∀ h : ch.progress.completed < ch.puzzles.length,
      (enterChamber st chamberId now).2 = EnterOutcome.started ∧
      (enterChamber st chamberId now).1.currentPuzzle =
        some { chamberId := chamberId, puzzleIndex := ch.progress.completed,
               puzzle := ch.puzzles.get ⟨ch.progress.completed, h⟩,
               startTime := now, hintsUsed := 0, attempts := 0 } := by
  have hnl : ¬ (st.user.level < ch.unlockLevel) := by omega
  by_cases hlt : ch.progress.completed < ch.puzzles.length
  · have he : enterChamber st chamberId now =
        ({ { st with currentChamber := some chamberId } with
            currentPuzzle := some { chamberId := chamberId,
                                    puzzleIndex := ch.progress.completed,
                                    puzzle := ch.puzzles.get ⟨ch.progress.completed, hlt⟩,
                                    startTime := now, hintsUsed := 0, attempts := 0 },
            currentScreen := "puzzle" }, EnterOutcome.started) := by
      simp only [enterChamber, hlk, if_neg hnl, if_pos hlt, startPuzzle,
        List.getElem?_eq_getElem hlt, List.get_eq_getElem]
    have h2 : (enterChamber st chamberId now).2 = EnterOutcome.started := by
      rw [he]
    have h1 : (enterChamber st chamberId now).1.currentPuzzle =
        some { chamberId := chamberId, puzzleIndex := ch.progress.completed,
               puzzle := ch.puzzles.get ⟨ch.progress.completed, hlt⟩,
               startTime := now, hintsUsed := 0, attempts := 0 } := by
      rw [he]
    refine ⟨?_, fun h => ⟨h2, h1⟩⟩
    rw [h2]
    constructor
    · intro hcontra; exact absurd hcontra (by simp)
    · intro hcontra; omega
  · have h2 : (enterChamber st chamberId now).2 = EnterOutcome.chamberExhausted := by
      simp only [enterChamber, hlk, if_neg hnl, if_neg hlt]
    refine ⟨?_, fun h => absurd h hlt⟩
    rw [h2]
    exact ⟨fun _ => by omega, fun _ => rfl⟩

/-- Witness for C3 on the demo state: the loaded single-puzzle chamber
starts its puzzle 0. -/
theorem enterChamber_exhausted_iff_loaded_witness :
    demoState.chambers.lookup "logical-sequences" = some demoChamber ∧
    demoChamber.unlockLevel ≤ demoState.user.level ∧
    (((enterChamber demoState "logical-sequences" 77).2 = EnterOutcome.chamberExhausted ↔
       demoChamber.puzzles.length ≤ demoChamber.progress.completed) ∧
     ∀ h : demoChamber.progress.completed < demoChamber.puzzles.length,
       (enterChamber demoState "logical-sequences" 77).2 = EnterOutcome.started ∧
       (enterChamber demoState "logical-sequences" 77).1.currentPuzzle =
         some { chamberId := "logical-sequences",
                puzzleIndex := demoChamber.progress.completed,
                puzzle := demoChamber.puzzles.get ⟨demoChamber.progress.completed, h⟩,
                startTime := 77, hintsUsed := 0, attempts := 0 }) :=
  ⟨rfl, by decide,
   enterChamber_exhausted_iff_loaded demoState "logical-sequences" 77 demoChamber
     rfl (by decide)⟩

/-- C3 counterexample: at the startup catalog with a level 5 user, the
unlocked deductive-reasoning chamber (unlockLevel 5, puzzleCount 25,
completed 0, puzzle list never loaded) fails with the chamber-exhausted
outcome although completed differs from puzzleCount, refuting the claim
that exhaustion occurs exactly at completed = puzzleCount. -/
theorem enterChamber_exhausted_cex :
    levelFiveState.user.level = 5 ∧
    (levelFiveState.chambers.lookup "deductive-reasoning").map Chamber.unlockLevel =
      some 5 ∧
    (levelFiveState.chambers.lookup "deductive-reasoning").map
      (fun c => c.progress.completed) = some 0 ∧
    (levelFiveState.chambers.lookup "deductive-reasoning").map Chamber.puzzleCount =
      some 25 ∧
    (0 : Nat) ≠ 25 ∧
    (enterChamber levelFiveState "deductive-reasoning" 0).2 =
      EnterOutcome.chamberExhausted := by
  refine ⟨rfl, rfl, rfl, rfl, by decide, rfl⟩

/-- C4: the no-more-hints guard of showHint is unreachable: because the
hint index is clamped to Math.min(hintsUsed, hints.length - 1), the test
hintIndex at or above hints.length can never fire, so showHint never
reports the no-more-hints failure, and on a concrete attempt that has
already revealed all 3 hints a further call increments hintsRevealed to 4
(beyond hints.length) and re-shows the last hint instead of failing. -/
theorem showHint_noMore_unreachable :
    (∀ st : GameState, (showHint st).2 ≠ HintOutcome.noMore) ∧
    hintExhaustedState.currentPuzzle.map CurrentPuzzle.hintsUsed = some 3 ∧
    hintExhaustedState.currentPuzzle.map (fun cp => cp.puzzle.hints.length) =
      some 3 ∧
    (showHint hintExhaustedState).1.currentPuzzle.map CurrentPuzzle.hintsUsed =
      some 4 ∧
    (showHint hintExhaustedState).2 = HintOutcome.shown
      (some "If all roses are flowers, and we have a rose, it must be a flower.") := by
  refine ⟨?_, rfl, rfl, rfl, rfl⟩
  intro st
  unfold showHint
  cases hcp : st.currentPuzzle with
  | none => simp
  | some cp =>
    have hmin : ¬ ((cp.puzzle.hints.length : Int) ≤
        min (cp.hintsUsed : Int) ((cp.puzzle.hints.length : Int) - 1)) := by
      have := min_le_right (cp.hintsUsed : Int) ((cp.puzzle.hints.length : Int) - 1)
      omega
    simp [hmin]

/-- C5: loading the blob produced by saveGameData restores the persisted
observables exactly: user profile, settings and the chamber collection are
all equal to those of the serialized state (the ephemeral attempt is never
persisted). -/
theorem load_serialize_roundtrip (st : GameState) (now t : Nat) :
    (loadGameData (initialGameState t) (some (saveGameData st now))).user = st.user ∧
    (loadGameData (initialGameState t) (some (saveGameData st now))).settings =
      st.settings ∧
    (loadGameData (initialGameState t) (some (saveGameData st now))).chambers =
      st.chambers :=
  ⟨rfl, rfl, rfl⟩

/-- C7: entering a chamber whose unlockLevel exceeds the user level fails
with the not-unlocked outcome and returns the state unchanged: no profile,
chamber or attempt mutation happens on the failed call. -/
theorem enterChamber_locked_no_mutation (st : GameState) (chamberId : String)
    (now : Nat) (ch : Chamber)
    (hlk : st.chambers.lookup chamberId = some ch)
    (h : st.user.level < ch.unlockLevel) :
    enterChamber st chamberId now = (st, EnterOutcome.notUnlocked) := by
  simp only [enterChamber, hlk, if_pos h]

/-- Witness for C7: a level 3 user against deductive-reasoning
(unlockLevel 5), the Scenario E input. -/
theorem enterChamber_locked_no_mutation_witness :
    levelThreeState.chambers.lookup "deductive-reasoning" =
      some (mkChamber "deductive-reasoning" 5 25 1).2 ∧
    levelThreeState.user.level < (mkChamber "deductive-reasoning" 5 25 1).2.unlockLevel ∧
    enterChamber levelThreeState "deductive-reasoning" 0 =
      (levelThreeState, EnterOutcome.notUnlocked) :=
  ⟨rfl, by decide,
   enterChamber_locked_no_mutation levelThreeState "deductive-reasoning" 0
     (mkChamber "deductive-reasoning" 5 25 1).2 rfl (by decide)⟩

/-- C8: loadGameData is a total function that falls back field by field:
an absent blob or a corrupt blob leaves the (default) state untouched, a
missing user, settings or chambers field keeps the defaults for that
component, a present component is merged over the defaults with
field-level getD semantics, and an all-absent user object merges to
exactly the default profile. -/
theorem load_merge_with_defaults (base : GameState) (su : SavedUser)
    (ss2 : SavedSettings) (chs : List (String × Chamber))
    (uo : Option SavedUser) (so : Option SavedSettings)
    (co : Option (List (String × Chamber))) (lo : Option Nat) :
    loadGameData base none = base ∧
    loadGameData base (some .corrupt) = base ∧
    (loadGameData base (some (.data none so co lo))).user = base.user ∧
    (loadGameData base (some (.data uo none co lo))).settings = base.settings ∧
    (loadGameData base (some (.data uo so none lo))).chambers = base.chambers ∧
    (loadGameData base (some (.data (some su) so co lo))).user =
      mergeUser base.user su ∧
    (loadGameData base (some (.data uo (some ss2) co lo))).settings =
      mergeSettings base.settings ss2 ∧
    (loadGameData base (some (.data uo so (some chs) lo))).chambers = chs ∧
    mergeUser base.user
      { level := none, xp := none, xpToNext := none, totalSolved := none,
        currentStreak := none, chambersUnlocked := none, achievements := none } =
      base.user ∧
    (mergeUser base.user su).level = su.level.getD base.user.level ∧
    (mergeUser base.user su).xp = su.xp.getD base.user.xp ∧
    (mergeUser base.user su).xpToNext = su.xpToNext.getD base.user.xpToNext :=
  ⟨rfl, rfl, rfl, rfl, rfl, rfl, rfl, rfl, rfl, rfl, rfl, rfl⟩

/-- The bundled updateUnlockedChambers agrees with the core one. -/
theorem app_updateUnlockedChambers_eq :
    App.updateUnlockedChambers = updateUnlockedChambers := rfl

/-- The bundled calculateXPForNextLevel agrees with the core one. -/
theorem app_calculateXPForNextLevel_eq :
    App.calculateXPForNextLevel = calculateXPForNextLevel := rfl

/-- The bundled validateAnswer agrees with the core one. -/
theorem app_validateAnswer_eq : App.validateAnswer = validateAnswer := by
  funext ua ca
  cases ca <;> cases ua <;> rfl

/-- The bundled scoreOnCorrect agrees with the core one. -/
theorem app_scoreOnCorrect_eq : App.scoreOnCorrect = scoreOnCorrect := rfl

/-- The bundled setChamber agrees with the core one. -/
theorem app_setChamber_eq : App.setChamber = setChamber := rfl

/-- The bundled handleIncorrectAnswer agrees with the core one. -/
theorem app_handleIncorrectAnswer_eq :
    App.handleIncorrectAnswer = handleIncorrectAnswer := by
  funext st
  unfold App.handleIncorrectAnswer handleIncorrectAnswer
  cases st.currentPuzzle <;> rfl

/-- The bundled addXP loop agrees with the core one at every fuel and
state. -/
theorem app_addXPLoop_eq (fuel : Nat) :
    ∀ st : GameState, App.addXPLoop fuel st = addXPLoop fuel st := by
  induction fuel with
  | zero => intro st; rfl
  | succ n ih =>
    intro st
    rw [App.addXPLoop, addXPLoop]
    by_cases hc : st.user.xpToNext ≤ st.user.xp
    · rw [if_pos hc, if_pos hc, ih]
      simp only [app_updateUnlockedChambers_eq, app_calculateXPForNextLevel_eq]
    · rw [if_neg hc, if_neg hc]

/-- The bundled addXP agrees with the core one. -/
theorem app_addXP_eq : App.addXP = addXP := by
  funext st amount
  simp only [App.addXP, addXP]
  exact app_addXPLoop_eq _ _

/-- The bundled handleCorrectAnswer agrees with the core one. -/
theorem app_handleCorrectAnswer_eq :
    App.handleCorrectAnswer = handleCorrectAnswer := by
  funext st now
  cases hcp : st.currentPuzzle with
  | none => simp only [App.handleCorrectAnswer, handleCorrectAnswer, hcp]
  | some cp =>
    cases hlk : List.lookup cp.chamberId st.chambers with
    | none => simp only [App.handleCorrectAnswer, handleCorrectAnswer, hcp, hlk]
    | some chamber =>
      simp only [App.handleCorrectAnswer, handleCorrectAnswer, hcp, hlk,
        app_scoreOnCorrect_eq, app_setChamber_eq, app_addXP_eq]

/-- The bundled checkAnswer agrees with the core one. -/
theorem app_checkAnswer_eq : App.checkAnswer = checkAnswer := by
  funext st ua now
  cases hcp : st.currentPuzzle with
  | none => simp only [App.checkAnswer, checkAnswer, hcp]
  | some cp =>
    cases ua with
    | none => simp only [App.checkAnswer, checkAnswer, hcp]
    | some a =>
      simp only [App.checkAnswer, checkAnswer, hcp, app_validateAnswer_eq,
        app_handleCorrectAnswer_eq, app_handleIncorrectAnswer_eq]

/-- C9: the MindForge class bundled in src/public/js/app.js (lines 1-1330)
and the class in src/src/js/core/game.js are behaviorally equivalent: the
embeddings of all eight core operations are equal functions, so every
operation produces the same result state and the same outcome on every
state. -/
theorem app_core_equivalence :
    App.enterChamber = enterChamber ∧
    App.checkAnswer = checkAnswer ∧
    App.showHint = showHint ∧
    App.resetPuzzle = resetPuzzle ∧
    App.nextPuzzle = nextPuzzle ∧
    App.addXP = addXP ∧
    App.saveGameData = saveGameData ∧
    App.loadGameData = loadGameData :=
  ⟨rfl, app_checkAnswer_eq, rfl, rfl, rfl, app_addXP_eq, rfl, rfl⟩

end MindForge
